import Mathlib

/-!
Verification of the alert lifecycle and geospatial matching engine of the
Disaster-Management repository, as implemented by the Express route module
for `/api/alerts` (`backend/routes/alerts.js`, provided as
`src/unnamed/part_001`).

The embedding is shallow: each route handler's pure request-to-response
logic is translated into Lean functions over an explicit alert store
(`List Alert`).  MongoDB, the external persistence collaborator, is
modelled by the query semantics its operators denote on the stored
documents; the `$centerSphere` geospatial operator is modelled from the
spec's Spatial Index contract, parametrised by the haversine central-angle
function it computes internally.  JavaScript numbers arriving from query
strings are modelled by `JsVal` (a rational, NaN, or a signed infinity),
timestamps by `Int` (milliseconds since the epoch), and coordinates by `ℚ`.
-/

namespace DisasterAlerts

/-- A JavaScript number as it flows through the handlers after the
implicit `ToNumber` coercion of query-string parameters: a finite value,
`NaN`, or a signed infinity. -/
inductive JsVal where
  | num (q : ℚ)
  | nan
  | inf
  | negInf
deriving DecidableEq

/-- JS subtraction (`a - b`), with NaN propagation and the IEEE rules for
the infinities (`inf - inf = NaN`). -/
def jsSub : JsVal → JsVal → JsVal
  | .num a, .num b => .num (a - b)
  | .num _, .inf => .negInf
  | .num _, .negInf => .inf
  | .inf, .num _ => .inf
  | .inf, .negInf => .inf
  | .negInf, .num _ => .negInf
  | .negInf, .inf => .negInf
  | _, _ => .nan

/-- Pick the signed outcome of an operation between a finite value `a` and
an infinity: `pos` when `a > 0`, `neg` when `a < 0`, `zero` when `a = 0`
(JS multiplication of 0 by an infinity yields NaN). -/
def jsSign (a : ℚ) (pos neg zero : JsVal) : JsVal :=
  if 0 < a then pos else if a < 0 then neg else zero

/-- JS multiplication (`a * b`), with NaN propagation and the IEEE sign
rules for the infinities. -/
def jsMul : JsVal → JsVal → JsVal
  | .num a, .num b => .num (a * b)
  | .num a, .inf => jsSign a .inf .negInf .nan
  | .num a, .negInf => jsSign a .negInf .inf .nan
  | .inf, .num a => jsSign a .inf .negInf .nan
  | .negInf, .num a => jsSign a .negInf .inf .nan
  | .inf, .inf => .inf
  | .inf, .negInf => .negInf
  | .negInf, .inf => .negInf
  | .negInf, .negInf => .inf
  | _, _ => .nan

/-- JS division (`a / b`): division by zero yields a signed infinity (NaN
for `0 / 0`), a finite value divided by an infinity yields 0. -/
def jsDiv : JsVal → JsVal → JsVal
  | .num a, .num b => if b = 0 then jsSign a .inf .negInf .nan else .num (a / b)
  | .num _, .inf => .num 0
  | .num _, .negInf => .num 0
  | .inf, .num b => if b < 0 then .negInf else .inf
  | .negInf, .num b => if b < 0 then .inf else .negInf
  | _, _ => .nan

/-- JS `Math.ceil`: the ceiling of a finite value; NaN and the infinities
are returned unchanged. -/
def jsCeil : JsVal → JsVal
  | .num a => .num (⌈a⌉ : ℚ)
  | v => v

/-- A geographic point as stored in the documents' GeoJSON `coordinates`
array: `(longitude, latitude)`. -/
def GeoPoint : Type := ℚ × ℚ

instance : DecidableEq GeoPoint := instDecidableEqProd

/-- The embedded `location` subdocument of an alert.  The free-text
subfields and the coordinates are optional because an update can leave
them unset (see `patchLocation`); `radius` is in kilometres. -/
structure Location where
  coordinates : Option GeoPoint
  address : Option String
  city : Option String
  state : Option String
  country : Option String
  radius : ℚ
deriving DecidableEq

/-- An alert document.  `type`, `severity` and `status` are kept as the
raw strings MongoDB stores (the severity sort of the location handler
compares these strings, so the string representation is semantically
load-bearing).  Timestamps are milliseconds since the epoch. -/
structure Alert where
  id : Nat
  type : String
  severity : String
  status : String
  isPublic : Bool
  location : Location
  validFrom : Int
  validUntil : Int
  createdBy : Nat
  updatedBy : Option Nat
  views : Nat
  createdAt : Int
deriving DecidableEq

/-- Query parameters of `GET /api/alerts` after numeric coercion.  `none`
means the parameter was absent from the query string (the handler's
destructuring defaults apply only then).  The handler also accepts a
`sort` parameter (default `-createdAt`) that orders the returned page; it
does not affect which alerts match, the reported total, or the page
count, so it is not carried here. -/
structure ListQuery where
  type : Option String
  severity : Option String
  status : Option String
  lat : Option ℚ
  lng : Option ℚ
  radius : Option ℚ
  limit : Option JsVal
  page : Option JsVal
deriving DecidableEq

/-- The effective `status` parameter: the destructuring default
`status = 'active'` applies when the parameter is absent. -/
def statusParam (q : ListQuery) : String := q.status.getD "active"

/-- An optional string filter parameter applied truthily
(`if (type) filter.type = type`): an absent or empty-string parameter
imposes no constraint, otherwise the stored value must equal it. -/
def strFilterOk (param : Option String) (v : String) : Bool :=
  match param with
  | none => true
  | some t => if t = "" then true else decide (v = t)

/-- The Validity Evaluator's window test, added to the filter when the
effective status is `active`: `validFrom <= now` and `validUntil >= now`. -/
def windowOk (now : Int) (a : Alert) : Bool :=
  decide (a.validFrom ≤ now) && decide (now ≤ a.validUntil)

/-- The filter object built by the `GET /api/alerts` handler (the
document-level conditions passed to `Alert.find` and later reused verbatim
by `Alert.countDocuments`): always `isPublic: true`; `type` and `severity`
equality when supplied; `status` equality when the effective status is
truthy; and, in addition, the validity-window test when the effective
status is exactly `active`. -/
def matchesListFilter (q : ListQuery) (now : Int) (a : Alert) : Bool :=
  a.isPublic
    && strFilterOk q.type a.type
    && strFilterOk q.severity a.severity
    && (if statusParam q = "" then true else decide (a.status = statusParam q))
    && (if statusParam q = "active" then windowOk now a else true)

/-- Modelled from the spec: the external store's `$geoWithin` /
`$centerSphere` containment test (the spec's Spatial Index contract,
§4.2).  `angle` is the haversine central angle, in radians, between two
points of the unit sphere, as computed inside the store; a point is
contained iff its central angle from the centre is at most the angular
radius (boundary included). -/
def centerSphereContains (angle : GeoPoint → GeoPoint → ℚ)
    (center : GeoPoint) (angRadius : ℚ) (p : GeoPoint) : Bool :=
  decide (angle p center ≤ angRadius)

/-- The spatial condition the list handler adds with `query.where` when
both `lat` and `lng` are supplied: the alert's coordinates must lie within
`$centerSphere` of angular radius `radius / 6371` (radius defaulting to
50 km) around the query point.  A document without coordinates never
matches a geospatial operator.  Note this condition is attached to the
`find` query only — the `filter` object used by `countDocuments` never
contains it. -/
def listGeoOk (angle : GeoPoint → GeoPoint → ℚ) (q : ListQuery) (a : Alert) : Bool :=
  match q.lat, q.lng with
  | some lat, some lng =>
    (match a.location.coordinates with
     | some c => centerSphereContains angle (lng, lat) (q.radius.getD 50 / 6371) c
     | none => false)
  | _, _ => true

/-- The set of alerts matching the list handler's full `find` query
(document filter plus the spatial `where` condition), before sorting and
pagination are applied. -/
def listMatchSet (angle : GeoPoint → GeoPoint → ℚ) (q : ListQuery) (now : Int)
    (store : List Alert) : List Alert :=
  store.filter (fun a => matchesListFilter q now a && listGeoOk angle q a)

/-- The effective `limit` parameter (destructuring default 20 when
absent). -/
def effLimit (q : ListQuery) : JsVal := q.limit.getD (.num 20)

/-- The effective `page` parameter (destructuring default 1 when
absent). -/
def effPage (q : ListQuery) : JsVal := q.page.getD (.num 1)

/-- The value the handler passes to the query's `.limit(...)`: the
effective limit coerced by `limit * 1`. -/
def limitArg (q : ListQuery) : JsVal := jsMul (effLimit q) (.num 1)

/-- The value the handler passes to the query's `.skip(...)`:
`(page - 1) * limit`. -/
def skipArg (q : ListQuery) : JsVal := jsMul (jsSub (effPage q) (.num 1)) (effLimit q)

/-- The `total` reported by the list handler: `Alert.countDocuments(filter)`
over the document filter object — which carries the `isPublic`, `type`,
`severity`, `status` and validity-window conditions but not the spatial
condition and no pagination. -/
def listTotal (q : ListQuery) (now : Int) (store : List Alert) : Nat :=
  (store.filter (fun a => matchesListFilter q now a)).length

/-- The `pages` field of the list response: `Math.ceil(total / limit)`
under JS arithmetic. -/
def listPages (q : ListQuery) (now : Int) (store : List Alert) : JsVal :=
  jsCeil (jsDiv (.num (listTotal q now store : ℚ)) (effLimit q))

/-- The single-alert read `GET /api/alerts/:id`: `Alert.findById` with no
further conditions (in particular no `isPublic` restriction), followed by
a view-count increment persisted with `save`.  Returns the alert as served
(views already incremented) together with the updated store. -/
def getAlertById (store : List Alert) (id : Nat) : Option Alert × List Alert :=
  match store.find? (fun a => a.id = id) with
  | none => (none, store)
  | some a =>
    (some { a with views := a.views + 1 },
     store.map (fun b => if b.id = id then { b with views := b.views + 1 } else b))

/-- Parameters of `GET /api/alerts/location/:lat/:lng`: the path supplies
the mandatory coordinates; `radius` (default 50), `type` and `severity`
come from the query string. -/
structure LocationQuery where
  lat : ℚ
  lng : ℚ
  radius : Option ℚ
  type : Option String
  severity : Option String
deriving DecidableEq

/-- The spatial condition of the location handler: `$centerSphere` of
angular radius `radius / 6371` around the path point. -/
def locGeoOk (angle : GeoPoint → GeoPoint → ℚ) (q : LocationQuery) (a : Alert) : Bool :=
  match a.location.coordinates with
  | some c => centerSphereContains angle (q.lng, q.lat) (q.radius.getD 50 / 6371) c
  | none => false

/-- The filter object of the location handler: `isPublic: true`, stored
`status` equal to `'active'`, spatial containment, the validity window
against the current instant, and `type`/`severity` equality when
supplied.  (The handler builds the two window bounds from two separate
`new Date()` calls made while constructing the filter object; they are
modelled as one instant here, which is exact whenever the two calls fall
in the same millisecond.) -/
def locationFilter (angle : GeoPoint → GeoPoint → ℚ) (q : LocationQuery) (now : Int)
    (a : Alert) : Bool :=
  a.isPublic
    && decide (a.status = "active")
    && locGeoOk angle q a
    && windowOk now a
    && strFilterOk q.type a.type
    && strFilterOk q.severity a.severity

/-- Lexicographic comparison of character lists by code point. -/
def charListLt : List Char → List Char → Bool
  | [], [] => false
  | [], _ :: _ => true
  | _ :: _, [] => false
  | a :: as, b :: bs => if a < b then true else if b < a then false else charListLt as bs

/-- String comparison as MongoDB's BSON comparator performs it on string
fields: bytewise lexicographic on the UTF-8 encoding, which for the ASCII
severity and type strings of this system coincides with code-point
lexicographic order. -/
def mongoStrLt (s t : String) : Bool := charListLt s.data t.data

/-- The sort relation `{ severity: -1, createdAt: -1 }` as MongoDB
executes it on the stored documents: `severity` is a string field, so the
primary key is descending lexicographic string order, then descending
creation time.  `a` may precede `b` iff this holds. -/
def sevCreatedDesc (a b : Alert) : Prop :=
  (if a.severity = b.severity then decide (b.createdAt ≤ a.createdAt)
   else mongoStrLt b.severity a.severity) = true

instance : DecidableRel sevCreatedDesc := fun _a _b =>
  inferInstanceAs (Decidable (_ = true))

/-- The result of `GET /api/alerts/location/:lat/:lng`: the alerts
matching the location filter, sorted by `{ severity: -1, createdAt: -1 }`,
capped at 50. -/
def getAlertsByLocation (angle : GeoPoint → GeoPoint → ℚ) (q : LocationQuery)
    (now : Int) (store : List Alert) : List Alert :=
  (List.insertionSort sevCreatedDesc (store.filter (locationFilter angle q now))).take 50

/-- The authenticated caller context produced by the `protect` middleware:
the resolved user's id and role string. -/
structure UserRec where
  id : Nat
  role : String
deriving DecidableEq

/-- Modelled from the spec: the `protect` / `authorize('admin')`
middleware chain (`backend/middleware/auth.js`, not among the provided
sources).  Per §4.5 of the spec, create/update/delete require a caller
identity (`none` is an anonymous caller) with the elevated `admin` role;
otherwise the request fails with Forbidden before the handler body — and
hence before any store access — runs. -/
def authorizedAdmin : Option UserRec → Bool
  | none => false
  | some u => decide (u.role = "admin")

/-- Outcomes of the mutation endpoints. -/
inductive ApiError where
  | forbidden
  | notFound
deriving DecidableEq

/-- The `location` object of a create or update request body; every
subfield the handler reads from it is optional in JSON. -/
structure LocationPatch where
  coordinates : Option GeoPoint
  address : Option String
  city : Option String
  state : Option String
  country : Option String
  radius : Option ℚ
deriving DecidableEq

/-- JS `value || fallback` on the numeric `radius` subfield: an absent
radius — and, `||` testing truthiness, an explicit radius of 0 — yields
the fallback. -/
def jsOrRadius (v : Option ℚ) (fallback : ℚ) : ℚ :=
  match v with
  | some r => if r = 0 then fallback else r
  | none => fallback

/-- A create request body, restricted to the fields the embedding
tracks. -/
structure CreatePayload where
  type : String
  severity : String
  status : String
  isPublic : Bool
  location : LocationPatch
  validFrom : Int
  validUntil : Int
deriving DecidableEq

/-- `POST /api/alerts`: after the admin gate, builds the document from
the request body, stamping `createdBy` with the caller's id and rebuilding
`location` with `radius: req.body.location.radius || 50`; `Alert.create`
assigns the id and `createdAt`.  (The `validateAlertCreation` middleware,
also not among the provided sources, runs after the gate and is not
modelled; no settled property depends on it.)  Returns the outcome and the
resulting store. -/
def createAlert (ident : Option UserRec) (p : CreatePayload) (newId : Nat)
    (now : Int) (store : List Alert) : Except ApiError Alert × List Alert :=
  match ident with
  | none => (.error .forbidden, store)
  | some u =>
    if u.role = "admin" then
      let a : Alert :=
        { id := newId
          type := p.type
          severity := p.severity
          status := p.status
          isPublic := p.isPublic
          location :=
            { coordinates := p.location.coordinates
              address := p.location.address
              city := p.location.city
              state := p.location.state
              country := p.location.country
              radius := jsOrRadius p.location.radius 50 }
          validFrom := p.validFrom
          validUntil := p.validUntil
          createdBy := u.id
          updatedBy := none
          views := 0
          createdAt := now }
      (.ok a, store ++ [a])
    else (.error .forbidden, store)

/-- An update request body: a partial patch; `none` means the key is
absent from the body and therefore absent from the `$set` document built
by the handler's object spread. -/
structure AlertPatch where
  type : Option String
  severity : Option String
  status : Option String
  isPublic : Option Bool
  location : Option LocationPatch
  validFrom : Option Int
  validUntil : Option Int
deriving DecidableEq

/-- The handler's rebuilt `location` object when the patch contains one:
every subfield is read straight from the patch (absent subfields become
unset), except `radius`, which falls back to the alert's prior stored
radius via `req.body.location.radius || alert.location.radius`. -/
def patchLocation (prior : Location) (lp : LocationPatch) : Location :=
  { coordinates := lp.coordinates
    address := lp.address
    city := lp.city
    state := lp.state
    country := lp.country
    radius := jsOrRadius lp.radius prior.radius }

/-- The effect of `findByIdAndUpdate` with the handler's update document
`{ ...req.body, updatedBy }` (plus the rebuilt `location` when present):
each top-level field present in the patch is set, every other field keeps
its prior value. -/
def applyPatch (uid : Nat) (p : AlertPatch) (a : Alert) : Alert :=
  { a with
    type := p.type.getD a.type
    severity := p.severity.getD a.severity
    status := p.status.getD a.status
    isPublic := p.isPublic.getD a.isPublic
    validFrom := p.validFrom.getD a.validFrom
    validUntil := p.validUntil.getD a.validUntil
    location :=
      match p.location with
      | some lp => patchLocation a.location lp
      | none => a.location
    updatedBy := some uid }

/-- `PUT /api/alerts/:id`: admin gate, then `findById` (NotFound when the
id does not resolve), then `findByIdAndUpdate` with the patch document.
Returns the updated alert as responded, and the resulting store. -/
def updateAlert (ident : Option UserRec) (id : Nat) (p : AlertPatch)
    (store : List Alert) : Except ApiError Alert × List Alert :=
  match ident with
  | none => (.error .forbidden, store)
  | some u =>
    if u.role = "admin" then
      match store.find? (fun a => a.id = id) with
      | none => (.error .notFound, store)
      | some a =>
        (.ok (applyPatch u.id p a),
         store.map (fun b => if b.id = id then applyPatch u.id p b else b))
    else (.error .forbidden, store)

/-- `DELETE /api/alerts/:id`: admin gate, then `findById` (NotFound when
the id does not resolve), then `findByIdAndDelete` — a hard removal. -/
def deleteAlert (ident : Option UserRec) (id : Nat)
    (store : List Alert) : Except ApiError Unit × List Alert :=
  match ident with
  | none => (.error .forbidden, store)
  | some u =>
    if u.role = "admin" then
      match store.find? (fun a => a.id = id) with
      | none => (.error .notFound, store)
      | some _ => (.ok (), store.filter (fun a => ¬ a.id = id))
    else (.error .forbidden, store)

/-- The `$group`-by-key facets of the statistics aggregation: one
`(key, count)` pair per distinct key occurring in the store. -/
def groupCounts (key : Alert → String) (store : List Alert) : List (String × Nat) :=
  (store.map key).dedup.map
    (fun k => (k, (store.filter (fun a => key a = k)).length))

/-- The response shape of `GET /api/alerts/stats/overview`. -/
structure StatsOverview where
  totalAlerts : Nat
  activeAlerts : Nat
  alertsByType : List (String × Nat)
  alertsBySeverity : List (String × Nat)
  recentAlerts : Nat
deriving DecidableEq

/-- Milliseconds in the rolling recency window:
`7 * 24 * 60 * 60 * 1000`. -/
def weekMs : Int := 7 * 24 * 60 * 60 * 1000

/-- `GET /api/alerts/stats/overview` (behind the same admin gate, which
carries no store state and is elided here): the five facets of the single
aggregation pipeline.  The handler captures `now = new Date()` before the
pipeline, and the active facet matches `status: 'active'` within the
validity window against that `now`; the recent facet, however, builds its
cutoff from a second clock read, `new Date(Date.now() - 7*24*60*60*1000)`,
taken while the pipeline object is constructed — so the function takes the
two clock reads as separate arguments `now` and `nowAtBuild`. -/
def getAlertStatistics (store : List Alert) (now nowAtBuild : Int) : StatsOverview :=
  { totalAlerts := store.length
    activeAlerts :=
      (store.filter (fun a => decide (a.status = "active") && windowOk now a)).length
    alertsByType := groupCounts (fun a => a.type) store
    alertsBySeverity := groupCounts (fun a => a.severity) store
    recentAlerts :=
      (store.filter (fun a => decide (nowAtBuild - weekMs ≤ a.createdAt))).length }

/-- A sample public alert: status `active`, validity window `[0, 10]`,
coordinates at the origin, stored radius 50 km, created at instant 5. -/
def baseAlert : Alert :=
  { id := 1
    type := "flood"
    severity := "high"
    status := "active"
    isPublic := true
    location :=
      { coordinates := some (0, 0)
        address := some "Main Street"
        city := some "Springfield"
        state := none
        country := none
        radius := 50 }
    validFrom := 0
    validUntil := 10
    createdBy := 7
    updatedBy := none
    views := 0
    createdAt := 5 }

/-- A public active alert of severity `critical` at the origin. -/
def critAlert : Alert := { baseAlert with id := 1, severity := "critical" }

/-- A public active alert of severity `medium` at the origin. -/
def medAlert : Alert := { baseAlert with id := 2, severity := "medium" }

/-- A list query with every parameter absent (so all the handler's
defaults apply). -/
def emptyQuery : ListQuery := ⟨none, none, none, none, none, none, none, none⟩

/-- A location query at the origin with every optional parameter
absent. -/
def locQuery0 : LocationQuery := ⟨0, 0, none, none, none⟩

/-- A sample create request body. -/
def payload0 : CreatePayload :=
  { type := "landslide"
    severity := "low"
    status := "active"
    isPublic := true
    location := ⟨some (3, 4), none, none, none, none, none⟩
    validFrom := 0
    validUntil := 1 }

/-- The empty patch: a request body with no top-level keys. -/
def patchNone : AlertPatch := ⟨none, none, none, none, none, none, none⟩

/-- A patch that only sets `severity`. -/
def patchSeverity : AlertPatch := ⟨none, some "critical", none, none, none, none, none⟩

/-- A location patch carrying only coordinates (no address/city/state/
country, no radius). -/
def locPatch0 : LocationPatch := ⟨some (1, 2), none, none, none, none, none⟩

/-- A patch that only replaces `location`, with `locPatch0`. -/
def patchLoc0 : AlertPatch := ⟨none, none, none, none, some locPatch0, none, none⟩

/-- Claim C1, counterexample: a public alert whose stored status is
`draft` but whose validity window contains the current instant is
excluded from the default (`status=active`) list query — the stored-status
equality check is conjoined, not substituted, so inclusion is not
independent of the stored status field. -/
theorem list_active_excludes_valid_draft_cx :
    listMatchSet (fun _ _ => 0) emptyQuery 5 [{ baseAlert with status := "draft" }] = []
      ∧ Alert.isPublic { baseAlert with status := "draft" } = true
      ∧ statusParam emptyQuery = "active"
      ∧ windowOk 5 { baseAlert with status := "draft" } = true := by
  refine ⟨?_, rfl, rfl, rfl⟩
  decide

/-- Claim C1 (amended): under the default `status=active`, a list query
includes an alert iff it is in the store, is public, matches the
type/severity filters, has stored status equal to `active` (the stored
status equality is conjoined with the window test, not substituted by
it), satisfies `validFrom ≤ now ≤ validUntil`, and passes the spatial
condition when one is present. -/
theorem list_active_filter_conjoins_status (angle : GeoPoint → GeoPoint → ℚ)
    (q : ListQuery) (now : Int) (a : Alert) (store : List Alert)
    (h : statusParam q = "active") :
    a ∈ listMatchSet angle q now store ↔
      (a ∈ store ∧ a.isPublic = true ∧ strFilterOk q.type a.type = true
        ∧ strFilterOk q.severity a.severity = true ∧ a.status = "active"
        ∧ a.validFrom ≤ now ∧ now ≤ a.validUntil ∧ listGeoOk angle q a = true) := by
  simp only [listMatchSet, List.mem_filter, matchesListFilter, h, windowOk,
    Bool.and_eq_true, decide_eq_true_iff]
  simp [and_assoc]

/-- Witness for C1's amended theorem at a concrete query and store. -/
theorem list_active_filter_conjoins_status_w :
    baseAlert ∈ listMatchSet (fun _ _ => 0) emptyQuery 5 [baseAlert] :=
  (list_active_filter_conjoins_status (fun _ _ => 0) emptyQuery 5 baseAlert [baseAlert]
    rfl).mpr (by decide)

/-- Claim C2, counterexample: `GET /api/alerts/:id` performs a bare
`findById` with no `isPublic` restriction, so a non-public alert is
returned (with its view counter incremented) by the public single-alert
read. -/
theorem get_by_id_returns_private_cx :
    Option.map Alert.isPublic (getAlertById [{ baseAlert with isPublic := false }] 1).1
      = some false := by
  decide

/-- Claim C2 (amended): non-public alerts never appear in List or
Get-by-location results, regardless of the filter parameters; Get-by-id,
however, returns any stored alert by id regardless of `isPublic`. -/
theorem list_and_location_exclude_private (angle : GeoPoint → GeoPoint → ℚ)
    (q : ListQuery) (lq : LocationQuery) (now : Int) (store : List Alert) (a : Alert) :
    (a ∈ listMatchSet angle q now store → a.isPublic = true)
      ∧ (a ∈ getAlertsByLocation angle lq now store → a.isPublic = true) := by
  constructor
  · intro h
    have h2 := (List.mem_filter.mp h).2
    simp only [matchesListFilter, Bool.and_eq_true] at h2
    exact h2.1.1.1.1.1
  · intro h
    have h1 : a ∈ store.filter (locationFilter angle lq now) :=
      (List.mem_insertionSort sevCreatedDesc).mp (List.take_subset 50 _ h)
    have h2 := (List.mem_filter.mp h1).2
    simp only [locationFilter, Bool.and_eq_true] at h2
    exact h2.1.1.1.1.1

/-- Witness for C2's amended theorem at a concrete store. -/
theorem list_and_location_exclude_private_w :
    Alert.isPublic baseAlert = true :=
  (list_and_location_exclude_private (fun _ _ => 0) emptyQuery locQuery0 5
    [baseAlert] baseAlert).1 (by decide)

/-- Claim C3, counterexample: with `lat`/`lng` supplied, a public active
alert lying outside the search radius is excluded from the returned
alerts, yet `countDocuments` is called on the document filter without the
spatial condition, so the reported total still counts it. -/
theorem list_total_ignores_geo_cx :
    listMatchSet (fun _ _ => 1) { emptyQuery with lat := some 0, lng := some 0 } 5
        [baseAlert] = []
      ∧ listTotal { emptyQuery with lat := some 0, lng := some 0 } 5 [baseAlert] = 1 := by
  have hgeo : listGeoOk (fun _ _ => 1) { emptyQuery with lat := some 0, lng := some 0 }
      baseAlert = false := by
    simp only [listGeoOk, emptyQuery, baseAlert, centerSphereContains, Option.getD_none,
      decide_eq_false_iff_not]
    norm_num
  constructor
  · simp [listMatchSet, List.filter, hgeo]
  · decide

/-- Claim C3 (amended): the reported total counts the alerts matching the
document filter (public + type/severity/status + validity window) before
pagination — it is unchanged by the spatial parameters and by
`limit`/`page` — and the reported page count is `ceil(total / limit)`. -/
theorem list_total_and_pages (q : ListQuery) (now : Int) (store : List Alert) :
    (∀ lat lng r lim pg,
        listTotal { q with lat := lat, lng := lng, radius := r, limit := lim, page := pg }
            now store
          = listTotal q now store)
      ∧ ∀ L : ℚ, L ≠ 0 → effLimit q = .num L →
          listPages q now store = .num (⌈(listTotal q now store : ℚ) / L⌉ : ℚ) := by
  constructor
  · intro lat lng r lim pg
    rfl
  · intro L hL hE
    simp [listPages, jsDiv, jsCeil, hE, hL]

/-- Witness for C3's amended theorem: three matching alerts with
`limit=2`. -/
theorem list_total_and_pages_w :
    listPages { emptyQuery with limit := some (.num 2) } 5
        [baseAlert, { baseAlert with id := 2 }, { baseAlert with id := 3 }]
      = .num (⌈(listTotal { emptyQuery with limit := some (.num 2) } 5
          [baseAlert, { baseAlert with id := 2 }, { baseAlert with id := 3 }] : ℚ) / 2⌉ : ℚ) :=
  (list_total_and_pages { emptyQuery with limit := some (.num 2) } 5
    [baseAlert, { baseAlert with id := 2 }, { baseAlert with id := 3 }]).2
    2 (by norm_num) rfl

/-- Claim C4 (code bug): `severity` is stored as a string, so the
location handler's `.sort({ severity: -1, createdAt: -1 })` orders by
descending *lexicographic string* order — `"medium" > "critical"` — not
by the defined severity order.  At a query point covering a `critical`
and a `medium` alert of equal creation time, the code returns the
`medium` alert first, where the claim requires the `critical` alert
first. -/
theorem location_sort_lexical_not_severity_cx :
    getAlertsByLocation (fun _ _ => 0) locQuery0 5 [critAlert, medAlert]
      = [medAlert, critAlert] := by
  have hC : locationFilter (fun _ _ => 0) locQuery0 5 critAlert = true := by
    simp [locationFilter, locGeoOk, centerSphereContains, critAlert, baseAlert,
      locQuery0, windowOk, strFilterOk]
    norm_num
  have hM : locationFilter (fun _ _ => 0) locQuery0 5 medAlert = true := by
    simp [locationFilter, locGeoOk, centerSphereContains, medAlert, baseAlert,
      locQuery0, windowOk, strFilterOk]
    norm_num
  have hfil : List.filter (locationFilter (fun _ _ => 0) locQuery0 5)
      [critAlert, medAlert] = [critAlert, medAlert] := by
    simp [List.filter, hC, hM]
  have hr : ¬ sevCreatedDesc critAlert medAlert := by decide
  simp only [getAlertsByLocation, hfil]
  simp [List.insertionSort, List.orderedInsert, hr, List.take]

/-- Claim C5, counterexample: the destructuring defaults apply only when
`limit`/`page` are absent; an explicit `limit=0` is passed to the store
as 0 (not coerced to 20), and an explicit `page=0` yields a skip of
`-20`, not the default page 1. -/
theorem list_pagination_not_clamped_cx :
    limitArg { emptyQuery with limit := some (.num 0) } = .num 0
      ∧ ¬ limitArg { emptyQuery with limit := some (.num 0) } = .num 20
      ∧ skipArg { emptyQuery with page := some (.num 0) } = .num (-20) := by
  refine ⟨?_, ?_, ?_⟩
  · show jsMul (.num 0) (.num 1) = .num 0
    norm_num [jsMul]
  · show ¬ jsMul (.num 0) (.num 1) = .num 20
    norm_num [jsMul]
  · show jsMul (jsSub (.num 0) (.num 1)) (.num 20) = .num (-20)
    norm_num [jsMul, jsSub]

/-- Claim C5 (amended): the `limit`/`page` defaults (20 and 1) substitute
only for absent parameters; any supplied value — including non-positive
or NaN values — is applied to the query as-is after JS numeric coercion
(`limit * 1`, `(page - 1) * limit`), with no clamping. -/
theorem list_pagination_defaults_only_when_absent (q : ListQuery) :
    (limitArg q = .num 20 ↔ (q.limit = none ∨ q.limit = some (.num 20)))
      ∧ (∀ v, q.limit = some v → limitArg q = jsMul v (.num 1))
      ∧ (∀ v, q.page = some v → skipArg q = jsMul (jsSub v (.num 1)) (effLimit q)) := by
  refine ⟨?_, ?_, ?_⟩
  · cases h : q.limit with
    | none => simp [limitArg, effLimit, h, jsMul]
    | some v =>
      cases v with
      | num a => simp [limitArg, effLimit, h, jsMul]
      | nan => simp [limitArg, effLimit, h, jsMul]
      | inf => simp [limitArg, effLimit, h, jsMul, jsSign]
      | negInf => simp [limitArg, effLimit, h, jsMul, jsSign]
  · intro v hv
    simp [limitArg, effLimit, hv]
  · intro v hv
    simp [skipArg, effPage, hv]

/-- Witness for C5's amended theorem: a supplied `limit=7` is applied
as-is. -/
theorem list_pagination_defaults_only_when_absent_w :
    limitArg { emptyQuery with limit := some (.num 7) } = jsMul (.num 7) (.num 1) :=
  (list_pagination_defaults_only_when_absent
    { emptyQuery with limit := some (.num 7) }).2.1 (.num 7) rfl

/-- Claim C6 (code bug): the statistics handler captures
`now = new Date()` before the aggregation, and the active facet uses it —
but the recent-7-day facet builds its cutoff from a second clock read,
`new Date(Date.now() - 7*24*60*60*1000)`, taken while the pipeline is
constructed.  With the two reads one millisecond apart, an alert created
exactly on the window boundary is dropped from the recent count, whereas
the single captured `now` the claim requires would include it. -/
theorem stats_recent_uses_second_clock_read_cx :
    (getAlertStatistics [{ baseAlert with createdAt := 0 }] weekMs (weekMs + 1)).recentAlerts = 0
      ∧ (getAlertStatistics [{ baseAlert with createdAt := 0 }] weekMs weekMs).recentAlerts = 1 := by
  constructor <;> decide

/-- Claim C7: with an anonymous caller or a caller whose role is not
`admin`, Create, Update and Delete all fail with Forbidden and return the
store unchanged — the gate runs before any store access. -/
theorem mutations_require_admin (ident : Option UserRec) (p : CreatePayload)
    (newId : Nat) (now : Int) (id : Nat) (patch : AlertPatch) (store : List Alert)
    (h : authorizedAdmin ident = false) :
    createAlert ident p newId now store = (.error .forbidden, store)
      ∧ updateAlert ident id patch store = (.error .forbidden, store)
      ∧ deleteAlert ident id store = (.error .forbidden, store) := by
  cases ident with
  | none => exact ⟨rfl, rfl, rfl⟩
  | some u =>
    have hr : ¬ u.role = "admin" := by simpa [authorizedAdmin] using h
    exact ⟨by simp [createAlert, hr], by simp [updateAlert, hr], by simp [deleteAlert, hr]⟩

/-- Witness for C7: an anonymous `CreateAlert`/`UpdateAlert`/`DeleteAlert`
against an empty store fails with Forbidden and leaves the store empty. -/
theorem mutations_require_admin_w :
    createAlert none payload0 1 0 [] = (.error .forbidden, [])
      ∧ updateAlert none 1 patchNone [] = (.error .forbidden, [])
      ∧ deleteAlert none 1 [] = (.error .forbidden, []) :=
  mutations_require_admin none payload0 1 0 1 patchNone [] rfl

/-- Claim C8: a successful Update keeps every top-level field not present
in the patch (partial-update semantics), and a `location` patch without a
`radius` retains the alert's prior stored radius instead of resetting it
to the 50 km default. -/
theorem update_partial_patch (u : UserRec) (id : Nat) (p : AlertPatch)
    (store : List Alert) (a : Alert)
    (hrole : u.role = "admin")
    (hfind : store.find? (fun b => b.id = id) = some a) :
    (updateAlert (some u) id p store).1 = .ok (applyPatch u.id p a)
      ∧ (p.type = none → (applyPatch u.id p a).type = a.type)
      ∧ (p.location = none → (applyPatch u.id p a).location = a.location)
      ∧ (p.validFrom = none → (applyPatch u.id p a).validFrom = a.validFrom)
      ∧ (p.validUntil = none → (applyPatch u.id p a).validUntil = a.validUntil)
      ∧ (p.status = none → (applyPatch u.id p a).status = a.status)
      ∧ (p.isPublic = none → (applyPatch u.id p a).isPublic = a.isPublic)
      ∧ (∀ lp, p.location = some lp → lp.radius = none →
          (applyPatch u.id p a).location.radius = a.location.radius) := by
  refine ⟨by simp [updateAlert, hrole, hfind], ?_, ?_, ?_, ?_, ?_, ?_, ?_⟩
  · intro h; simp [applyPatch, h]
  · intro h; simp [applyPatch, h]
  · intro h; simp [applyPatch, h]
  · intro h; simp [applyPatch, h]
  · intro h; simp [applyPatch, h]
  · intro h; simp [applyPatch, h]
  · intro lp hlp hrad
    simp [applyPatch, hlp, patchLocation, jsOrRadius, hrad]

/-- Witness for C8: patching only `severity` on the sample alert leaves
`location`, `type`, `validFrom` and `validUntil` unchanged. -/
theorem update_partial_patch_w :
    (updateAlert (some ⟨9, "admin"⟩) 1 patchSeverity [baseAlert]).1
        = .ok (applyPatch 9 patchSeverity baseAlert)
      ∧ (applyPatch 9 patchSeverity baseAlert).location = baseAlert.location
      ∧ (applyPatch 9 patchSeverity baseAlert).type = baseAlert.type
      ∧ (applyPatch 9 patchSeverity baseAlert).validFrom = baseAlert.validFrom
      ∧ (applyPatch 9 patchSeverity baseAlert).validUntil = baseAlert.validUntil :=
  let T := update_partial_patch ⟨9, "admin"⟩ 1 patchSeverity [baseAlert] baseAlert rfl rfl
  ⟨T.1, T.2.2.1 rfl, T.2.1 rfl, T.2.2.2.1 rfl, T.2.2.2.2.1 rfl⟩

/-- Claim C9: with `lat`/`lng` supplied, both the list handler's spatial
condition and the location handler's containment test hold iff the
great-circle distance — the sphere radius 6371 km times the haversine
central angle the store computes — is at most the supplied radius
(boundary included), the angular radius being `radius / 6371`. -/
theorem spatial_containment_iff_distance_le (angle : GeoPoint → GeoPoint → ℚ)
    (q : ListQuery) (lq : LocationQuery) (a : Alert) (c : GeoPoint) (lat lng r : ℚ)
    (hlat : q.lat = some lat) (hlng : q.lng = some lng) (hr : q.radius = some r)
    (hlr : lq.radius = some r) (hc : a.location.coordinates = some c) :
    (listGeoOk angle q a = true ↔ 6371 * angle c (lng, lat) ≤ r)
      ∧ (locGeoOk angle lq a = true ↔ 6371 * angle c (lq.lng, lq.lat) ≤ r) := by
  have h6371 : (0:ℚ) < 6371 := by norm_num
  constructor
  · simp only [listGeoOk, hlat, hlng, hr, hc, Option.getD_some, centerSphereContains,
      decide_eq_true_iff]
    rw [le_div_iff₀ h6371, mul_comm]
  · simp only [locGeoOk, hlr, hc, Option.getD_some, centerSphereContains,
      decide_eq_true_iff]
    rw [le_div_iff₀ h6371, mul_comm]

/-- Witness for C9: an alert whose central angle from the query point is
1/1000 rad (about 6.4 km) is contained at radius 50 km by both
handlers. -/
theorem spatial_containment_iff_distance_le_w :
    listGeoOk (fun _ _ => 1/1000)
        { emptyQuery with lat := some 0, lng := some 0, radius := some 50 } baseAlert = true
      ∧ locGeoOk (fun _ _ => 1/1000) { locQuery0 with radius := some 50 } baseAlert = true :=
  let T := spatial_containment_iff_distance_le (fun _ _ => 1/1000)
    { emptyQuery with lat := some 0, lng := some 0, radius := some 50 }
    { locQuery0 with radius := some 50 } baseAlert (0, 0) 0 0 50 rfl rfl rfl rfl rfl
  ⟨T.1.mpr (by norm_num), T.2.mpr (by norm_num)⟩

/-- Claim C10: when the patch of a successful Update contains a
`location` object, each of coordinates, address, city, state and country
is taken solely from the patch — a subfield omitted there becomes unset,
losing the alert's prior value — and only `radius` falls back to the
prior stored radius. -/
theorem update_location_from_patch_only (u : UserRec) (id : Nat) (p : AlertPatch)
    (store : List Alert) (a : Alert) (lp : LocationPatch)
    (hrole : u.role = "admin")
    (hfind : store.find? (fun b => b.id = id) = some a)
    (hloc : p.location = some lp) :
    (updateAlert (some u) id p store).1 = .ok (applyPatch u.id p a)
      ∧ (applyPatch u.id p a).location.coordinates = lp.coordinates
      ∧ (applyPatch u.id p a).location.address = lp.address
      ∧ (applyPatch u.id p a).location.city = lp.city
      ∧ (applyPatch u.id p a).location.state = lp.state
      ∧ (applyPatch u.id p a).location.country = lp.country
      ∧ (lp.radius = none → (applyPatch u.id p a).location.radius = a.location.radius) := by
  refine ⟨by simp [updateAlert, hrole, hfind], ?_, ?_, ?_, ?_, ?_, ?_⟩
  · simp [applyPatch, hloc, patchLocation]
  · simp [applyPatch, hloc, patchLocation]
  · simp [applyPatch, hloc, patchLocation]
  · simp [applyPatch, hloc, patchLocation]
  · simp [applyPatch, hloc, patchLocation]
  · intro h
    simp [applyPatch, hloc, patchLocation, jsOrRadius, h]

/-- Witness for C10: patching the sample alert (which stores an address
and a city) with a location carrying only coordinates leaves the stored
address unset and keeps the prior radius. -/
theorem update_location_from_patch_only_w :
    (applyPatch 9 patchLoc0 baseAlert).location.address = none
      ∧ (applyPatch 9 patchLoc0 baseAlert).location.coordinates = some (1, 2)
      ∧ (applyPatch 9 patchLoc0 baseAlert).location.radius = baseAlert.location.radius :=
  let T := update_location_from_patch_only ⟨9, "admin"⟩ 1 patchLoc0 [baseAlert] baseAlert
    locPatch0 rfl rfl rfl
  ⟨T.2.2.1, T.2.1, T.2.2.2.2.2.2 rfl⟩

end DisasterAlerts
